import Mathlib

/-!
Shallow embedding of the agentic-ai-design-pattern repository.

The embedding covers:
* the message-history wrapper (src/_utils/message_history.py),
* the mock Asana project/task store (src/design_patterns/full_autonomous/asana_api.py),
* the Asana tool adapter registry (src/design_patterns/full_autonomous/asana_tools.py),
* the graph-variant call-centre router
  (src/design_patterns/supervisor/call_centre_multi_agent.py),
* the City Insights prompt-chaining pipeline
  (src/design_patterns/prompt_chaining/city_insights.py).

Conventions used throughout:
* LLM/agent invocations are oracle inputs: each agent call is represented by a
  record carrying the structured data the model returned, the transcript it
  produced, and the usage it accumulated.
* SQLite tables are insertion-ordered lists of rows; a SELECT without ORDER BY
  followed by fetchone returns the first row in insertion order, which is
  SQLite rowid order for these tables.
* Columns declared with COLLATE NOCASE compare with ASCII case folding
  (nocaseEq below); columns without a COLLATE clause compare exactly (BINARY).
* uuid.uuid4() and datetime.now().date() are nondeterministic inputs and are
  passed to the embedded operations as explicit arguments.
-/

/-- ASCII case-insensitive string equality: the semantics of SQLite's NOCASE
collation, which folds only the 26 upper-case ASCII letters. Lean's
Char.toLower likewise folds only ASCII upper-case letters; the fold is
applied to the underlying character list. -/
def nocaseEq (a b : String) : Bool := a.data.map Char.toLower == b.data.map Char.toLower

/-! ### Message history (src/_utils/message_history.py)

Message parts come from the external pydantic_ai library.  The request-part
family (the variants of ModelRequestPart) is SystemPromptPart, UserPromptPart,
ToolReturnPart and RetryPromptPart; the response-part family (the variants of
ModelResponsePart) is TextPart and ToolCallPart. -/

/-- The six concrete pydantic_ai message-part classes. -/
inductive PartClass
  | systemPromptPart
  | userPromptPart
  | toolReturnPart
  | retryPromptPart
  | textPart
  | toolCallPart
deriving DecidableEq, Repr

/-- A message part: its class determines its immutable part_kind tag; content
stands for the part's payload (prompt text, tool payload, ...). -/
structure MsgPart where
  cls : PartClass
  content : String
deriving DecidableEq, Repr

/-- The part_kind discriminator string of each pydantic_ai part class. -/
def MsgPart.part_kind (p : MsgPart) : String :=
  match p.cls with
  | .systemPromptPart => "system-prompt"
  | .userPromptPart => "user-prompt"
  | .toolReturnPart => "tool-return"
  | .retryPromptPart => "retry-prompt"
  | .textPart => "text"
  | .toolCallPart => "tool-call"

/-- Request (ModelRequest) versus response (ModelResponse) framing of a
message. -/
inductive MessageRole
  | request
  | response
deriving DecidableEq, Repr

/-- One conversation message: a framing tag and an ordered list of parts. -/
structure Message where
  role : MessageRole
  parts : List MsgPart
deriving DecidableEq, Repr

/-- Membership of a part class in the ModelRequestPart union
(the isinstance check against the request-part family). -/
def isRequestPart : PartClass → Bool
  | .systemPromptPart | .userPromptPart | .toolReturnPart | .retryPromptPart => true
  | _ => false

/-- Membership of a part class in the ModelResponsePart union
(the isinstance check against the response-part family). -/
def isResponsePart : PartClass → Bool
  | .textPart | .toolCallPart => true
  | _ => false

/-- A Python value handed to MessageHistory.append.  The parameter is only
annotated, not enforced, so besides the six part classes any other object can
arrive; nonPart names such a value by its type name. -/
inductive PyObject
  | part (p : MsgPart)
  | nonPart (typeName : String)
deriving DecidableEq, Repr

namespace MessageHistory

/-- MessageHistory.append: wrap a single part into a new ModelRequest or
ModelResponse (by the isinstance cascade over the two part families) and
append it to the message list; any other value raises a TypeError before the
list is touched.  The second component is the raised error message, none when
no error was raised; the first component is the message list after the call. -/
def append (msgs : List Message) (x : PyObject) : List Message × Option String :=
  match x with
  | .part p =>
    if isRequestPart p.cls then (msgs ++ [⟨.request, [p]⟩], none)
    else if isResponsePart p.cls then (msgs ++ [⟨.response, [p]⟩], none)
    else (msgs, some "Invalid part type")
  | .nonPart t => (msgs, some ("Invalid part type: " ++ t))

/-- The inner loop of MessageHistory.remove_part_kind for one message: iterate
over a copy of the parts list (the foldl runs over the snapshot, which equals
the initial live list) and, for each part whose part_kind matches, remove the
first equal occurrence from the live list (list.remove in Python, List.erase
here). -/
def stripLoop (k : String) (parts : List MsgPart) : List MsgPart :=
  parts.foldl (fun live p => if p.part_kind == k then live.erase p else live) parts

/-- MessageHistory.remove_part_kind: strip every part matching the given kind
from every message, in place; messages are never removed, so a message may be
left with zero parts. -/
def remove_part_kind (k : String) (msgs : List Message) : List Message :=
  msgs.map (fun m => { m with parts := stripLoop k m.parts })

end MessageHistory

/-- Helper for the stripLoop characterisation: walking the snapshot suffix
while the live list is an already-cleaned prefix followed by that suffix. -/
lemma stripLoop_invariant (k : String) :
    ∀ (rest acc : List MsgPart), (∀ p ∈ acc, ¬ p.part_kind = k) →
      rest.foldl (fun live p => if p.part_kind == k then live.erase p else live) (acc ++ rest)
        = acc ++ rest.filter (fun p => p.part_kind != k) := by
  intro rest
  induction rest with
  | nil => intro acc _; simp
  | cons q rest ih =>
    intro acc hacc
    by_cases hq : q.part_kind = k
    · have hqb : (q.part_kind == k) = true := by simp [hq]
      have hnm : q ∉ acc := fun hmem => (hacc q hmem) hq
      have herase : (acc ++ q :: rest).erase q = acc ++ rest := by
        rw [List.erase_append_right _ hnm, List.erase_cons_head]
      simp only [List.foldl_cons, hqb, if_pos]
      rw [herase, ih acc hacc]
      simp [List.filter_cons, hq]
    · have hqb : (q.part_kind == k) = false := by simp [hq]
      simp only [List.foldl_cons, hqb, Bool.false_eq_true, if_neg, not_false_iff]
      have hrw : acc ++ q :: rest = (acc ++ [q]) ++ rest := by simp
      rw [hrw, ih (acc ++ [q]) ?hacc']
      · simp [List.filter_cons, hq]
      · intro p hp
        rcases List.mem_append.mp hp with h | h
        · exact hacc p h
        · simp only [List.mem_singleton] at h
          subst h; exact hq

/-- The copy-iterate-and-remove loop of remove_part_kind computes exactly the
filter that keeps the parts of every other kind, in their original order. -/
lemma stripLoop_eq_filter (k : String) (parts : List MsgPart) :
    MessageHistory.stripLoop k parts = parts.filter (fun p => p.part_kind != k) := by
  have h := stripLoop_invariant k parts [] (by simp)
  simpa [MessageHistory.stripLoop] using h

/-! ### Mock Asana store (src/design_patterns/full_autonomous/asana_api.py)

Schema (created in Asana_Api.__create_tables): Project(Id TEXT COLLATE NOCASE
PRIMARY KEY, Name TEXT COLLATE NOCASE NOT NULL) and Task(Id TEXT COLLATE
NOCASE PRIMARY KEY, ProjectId TEXT NOT NULL, Name TEXT COLLATE NOCASE NOT
NULL, DueDate TEXT, Status TEXT).  Comparisons against Project.Id,
Project.Name, Task.Id and Task.Name therefore use NOCASE; comparisons against
Task.ProjectId use the default BINARY collation. -/

/-- A row of the Project table. -/
structure ProjectRow where
  rowId : String
  rowName : String
deriving DecidableEq, Repr

/-- A row of the Task table. -/
structure TaskRow where
  rowId : String
  rowProjectId : String
  rowName : String
  rowDueDate : String
  rowStatus : String
deriving DecidableEq, Repr

/-- The asana.db database: both tables, rows in insertion (rowid) order. -/
structure AsanaDb where
  projects : List ProjectRow
  tasks : List TaskRow
deriving DecidableEq, Repr

/-- The AsanaProject dataclass. -/
structure AsanaProject where
  id : String
  name : String
  link : String
deriving DecidableEq, Repr

/-- The AsanaTask dataclass. -/
structure AsanaTask where
  id : String
  project_id : String
  name : String
  due_date : String
  status : String
  link : String
deriving DecidableEq, Repr

/-- The AsanaProjectUpdate dataclass. -/
structure AsanaProjectUpdate where
  name : String
deriving DecidableEq, Repr

/-- The AsanaTaskUpdate dataclass. -/
structure AsanaTaskUpdate where
  name : String
  due_date : String
  status : String
deriving DecidableEq, Repr

namespace Asana_Api

/-- Asana_Api.__map_project__. -/
def map_project (e : ProjectRow) : AsanaProject :=
  { id := e.rowId, name := e.rowName,
    link := "https://example.com/projects/" ++ e.rowId }

/-- Asana_Api.__map_task__. -/
def map_task (e : TaskRow) : AsanaTask :=
  { id := e.rowId, project_id := e.rowProjectId, name := e.rowName,
    due_date := e.rowDueDate, status := e.rowStatus,
    link := "https://example.com/tasks/" ++ e.rowId }

/-- Asana_Api.create_project: INSERT a row with a fresh uuid4 id (the id is
an explicit argument here) and return the dataclass.  The Id PRIMARY KEY
constraint is maintained by uuid freshness, which theorems that need it state
as a hypothesis. -/
def create_project (db : AsanaDb) (project_id project_name : String) :
    AsanaDb × AsanaProject :=
  ({ db with projects := db.projects ++ [⟨project_id, project_name⟩] },
   { id := project_id, name := project_name,
     link := "https://example.com/projects/" ++ project_id })

/-- Asana_Api.get_project_id: SELECT Id FROM Project WHERE Name = ? (NOCASE),
fetchone; None when no row matches. -/
def get_project_id (db : AsanaDb) (project_name : String) : Option String :=
  (db.projects.find? (fun r => nocaseEq r.rowName project_name)).map (·.rowId)

/-- Asana_Api.get_project_by_id: SELECT ... WHERE Id = ? (NOCASE), fetchone,
mapped through __map_project__. -/
def get_project_by_id (db : AsanaDb) (project_id : String) : Option AsanaProject :=
  (db.projects.find? (fun r => nocaseEq r.rowId project_id)).map map_project

/-- Asana_Api.get_project_by_name: SELECT ... WHERE Name = ? (NOCASE),
fetchone, mapped through __map_project__. -/
def get_project_by_name (db : AsanaDb) (project_name : String) : Option AsanaProject :=
  (db.projects.find? (fun r => nocaseEq r.rowName project_name)).map map_project

/-- Asana_Api.update_project: read the entity by id; when absent return None
without touching the table, otherwise UPDATE Project SET Name = ? WHERE
Id = ? and return the in-memory entity with its name overwritten. -/
def update_project (db : AsanaDb) (project_id : String) (model : AsanaProjectUpdate) :
    AsanaDb × Option AsanaProject :=
  match get_project_by_id db project_id with
  | none => (db, none)
  | some entity =>
    ({ db with projects := db.projects.map (fun r =>
        if nocaseEq r.rowId project_id then { r with rowName := model.name } else r) },
     some { entity with name := model.name })

/-- Asana_Api.get_projects: SELECT every Project row, mapped. -/
def get_projects (db : AsanaDb) : List AsanaProject :=
  db.projects.map map_project

/-- Asana_Api.delete_project_by_id: when the id argument is truthy (not None
and not the empty string) DELETE FROM Task WHERE ProjectId = ? (BINARY), then
DELETE FROM Project WHERE Id = ? (NOCASE), commit and return True; otherwise
return False and leave the tables untouched.  The argument is an Option
because delete_project passes the possibly-None result of get_project_id. -/
def delete_project_by_id (db : AsanaDb) (project_id : Option String) :
    AsanaDb × Bool :=
  match project_id with
  | some pid =>
    if pid = "" then (db, false)
    else ({ projects := db.projects.filter (fun r => !(nocaseEq r.rowId pid)),
            tasks := db.tasks.filter (fun r => !(r.rowProjectId == pid)) },
          true)
  | none => (db, false)

/-- Asana_Api.delete_project: resolve the name to an id and defer to
delete_project_by_id. -/
def delete_project (db : AsanaDb) (project_name : String) : AsanaDb × Bool :=
  delete_project_by_id db (get_project_id db project_name)

/-- Asana_Api.create_task: a fresh uuid4 task id and the current date are
explicit arguments; a falsy due_date (None or empty) or the literal "today"
is replaced by the current date; INSERT the row and return the dataclass. -/
def create_task (db : AsanaDb) (today task_id project_id task_name : String)
    (due_date : Option String := none) (status : String := "Not Started") :
    AsanaDb × AsanaTask :=
  let dd : String :=
    if due_date = none ∨ due_date = some "" ∨ due_date = some "today" then today
    else due_date.getD ""
  ({ db with tasks := db.tasks ++ [⟨task_id, project_id, task_name, dd, status⟩] },
   { id := task_id, project_id := project_id, name := task_name,
     due_date := dd, status := status,
     link := "https://example.com/tasks/" ++ task_id })

/-- Asana_Api.get_task_by_id: SELECT ... WHERE Id = ? (NOCASE), fetchone,
mapped through __map_task__. -/
def get_task_by_id (db : AsanaDb) (task_id : String) : Option AsanaTask :=
  (db.tasks.find? (fun r => nocaseEq r.rowId task_id)).map map_task

/-- Asana_Api.get_task_by_name: resolve the project by name first (absent
project gives None), then SELECT ... WHERE ProjectId = ? (BINARY) AND
Name = ? (NOCASE), fetchone, mapped. -/
def get_task_by_name (db : AsanaDb) (project_name name : String) : Option AsanaTask :=
  match get_project_by_name db project_name with
  | none => none
  | some project =>
    (db.tasks.find? (fun r => r.rowProjectId == project.id && nocaseEq r.rowName name)).map
      map_task

/-- Asana_Api.get_tasks_by_project_id: SELECT ... WHERE ProjectId = ?
(BINARY), fetchall, mapped. -/
def get_tasks_by_project_id (db : AsanaDb) (project_id : String) : List AsanaTask :=
  (db.tasks.filter (fun r => r.rowProjectId == project_id)).map map_task

/-- Asana_Api.get_tasks_by_project_name: Task JOIN Project ON t.ProjectId =
p.Id (BINARY, the left column's collation) WHERE p.Name = ? (NOCASE). -/
def get_tasks_by_project_name (db : AsanaDb) (project_name : String) : List AsanaTask :=
  (db.tasks.filter (fun t => db.projects.any (fun p =>
      t.rowProjectId == p.rowId && nocaseEq p.rowName project_name))).map map_task

/-- Asana_Api.update_task_status: when both arguments are truthy (non-empty)
UPDATE Task SET Status = ? WHERE Id = ? (NOCASE) and return True, else
return False. -/
def update_task_status (db : AsanaDb) (task_id status : String) : AsanaDb × Bool :=
  if task_id ≠ "" ∧ status ≠ "" then
    ({ db with tasks := db.tasks.map (fun r =>
        if nocaseEq r.rowId task_id then { r with rowStatus := status } else r) },
     true)
  else (db, false)

/-- Asana_Api.update_task: read the entity by id; when absent return None
without touching the table; otherwise UPDATE Task SET Name = ?, DueDate = ?,
Status = ? WHERE Id = ? (NOCASE) and return the in-memory entity with its
fields overwritten.  The source assigns entity.status = model.due_date (not
model.status), so the returned entity's status mirrors the due-date value;
this embedding reproduces that assignment verbatim. -/
def update_task (db : AsanaDb) (task_id : String) (model : AsanaTaskUpdate) :
    AsanaDb × Option AsanaTask :=
  match get_task_by_id db task_id with
  | none => (db, none)
  | some entity =>
    ({ db with tasks := db.tasks.map (fun r =>
        if nocaseEq r.rowId task_id then
          { r with rowName := model.name, rowDueDate := model.due_date,
                   rowStatus := model.status }
        else r) },
     some { entity with name := model.name, due_date := model.due_date,
                        status := model.due_date })

/-- Asana_Api.delete_task_by_id: when the id is truthy DELETE FROM Task WHERE
Id = ? (NOCASE) and return True, else return False. -/
def delete_task_by_id (db : AsanaDb) (task_id : String) : AsanaDb × Bool :=
  if task_id ≠ "" then
    ({ db with tasks := db.tasks.filter (fun r => !(nocaseEq r.rowId task_id)) }, true)
  else (db, false)

/-- Asana_Api.delete_task_by_name: resolve the project by name (absent gives
False); when the task name is truthy DELETE FROM Task WHERE ProjectId = ?
(BINARY) AND Name = ? (NOCASE) and return True, else return False. -/
def delete_task_by_name (db : AsanaDb) (project_name name : String) : AsanaDb × Bool :=
  match get_project_by_name db project_name with
  | none => (db, false)
  | some project =>
    if name ≠ "" then
      ({ db with tasks := db.tasks.filter (fun r =>
          !(r.rowProjectId == project.id && nocaseEq r.rowName name)) },
       true)
    else (db, false)

end Asana_Api

/-! ### Tool adapter layer (src/design_patterns/full_autonomous/asana_tools.py)

AsanaTools.__init__ appends one Tool descriptor per wrapper method: eight
project tools and nine task tools, seventeen in total; get_tools returns the
list.  Each wrapper delegates directly to the Asana_Api method of the same
name; the update_task wrapper first decodes its JSON string payload into an
AsanaTaskUpdate via json.loads (Python standard library, external), modelled
here as an explicit decode argument. -/

/-- Identifier of an underlying Asana_Api store method. -/
inductive StoreOp
  | create_project
  | get_project_id
  | get_project_by_id
  | get_project_by_name
  | get_projects
  | update_project
  | delete_project_by_id
  | delete_project
  | create_task
  | get_task_by_id
  | get_task_by_name
  | get_tasks_by_project_id
  | get_tasks_by_project_name
  | update_task_status
  | update_task
  | delete_task_by_id
  | delete_task_by_name
deriving DecidableEq, Repr

/-- The Python name of each underlying store method. -/
def StoreOp.methodName : StoreOp → String
  | .create_project => "create_project"
  | .get_project_id => "get_project_id"
  | .get_project_by_id => "get_project_by_id"
  | .get_project_by_name => "get_project_by_name"
  | .get_projects => "get_projects"
  | .update_project => "update_project"
  | .delete_project_by_id => "delete_project_by_id"
  | .delete_project => "delete_project"
  | .create_task => "create_task"
  | .get_task_by_id => "get_task_by_id"
  | .get_task_by_name => "get_task_by_name"
  | .get_tasks_by_project_id => "get_tasks_by_project_id"
  | .get_tasks_by_project_name => "get_tasks_by_project_name"
  | .update_task_status => "update_task_status"
  | .update_task => "update_task"
  | .delete_task_by_id => "delete_task_by_id"
  | .delete_task_by_name => "delete_task_by_name"

/-- Whether the operation belongs to the projects section of the store. -/
def StoreOp.isProjectOp : StoreOp → Bool
  | .create_project | .get_project_id | .get_project_by_id | .get_project_by_name
  | .get_projects | .update_project | .delete_project_by_id | .delete_project => true
  | _ => false

/-- One pydantic_ai Tool registry entry: the name and description strings
passed to the Tool constructor, and the wrapper method bound as its function,
identified by the store operation it delegates to. -/
structure ToolDescriptor where
  name : String
  op : StoreOp
  description : String
deriving DecidableEq, Repr

/-- The tool list built by AsanaTools.__init__ and returned by
AsanaTools.get_tools, in source order with the exact name and description
strings. -/
def asana_tools_registry : List ToolDescriptor :=
  [ ⟨"create_project", .create_project, "Creates a project by name"⟩,
    ⟨"get_project_id", .get_project_id, "Gets a project id by project name"⟩,
    ⟨"get_project_by_id", .get_project_by_id, "Gets a project object by project id"⟩,
    ⟨"get_project_by_name", .get_project_by_name, "Gets a project object by project name"⟩,
    ⟨"get_projects", .get_projects, "Gets all existing project objects. Takes no arguments."⟩,
    ⟨"update_project", .update_project, "Updates an existing project object for a given project id"⟩,
    ⟨"delete_project_by_id", .delete_project_by_id, "Deletes an existing project object by project id"⟩,
    ⟨"delete_project", .delete_project, "Deletes an existing project object by project name"⟩,
    ⟨"create_task", .create_task, "Creates a task by name for a given project id"⟩,
    ⟨"get_task_by_id", .get_task_by_id, "Gets a task by task id"⟩,
    ⟨"get_task_by_name", .get_task_by_name, "Gets a task for a given project using the project name and task name"⟩,
    ⟨"get_tasks_by_project_id", .get_tasks_by_project_id, "Gets all existing task objects for a given project id"⟩,
    ⟨"get_tasks_by_project_name", .get_tasks_by_project_name, "Gets all existing task objects for a given project name"⟩,
    ⟨"update_task_status", .update_task_status, "Updates an existing task object's status for a given task id"⟩,
    ⟨"update_task", .update_task, "Updates an existing task object for a given task id"⟩,
    ⟨"delete_task_by_id", .delete_task_by_id, "Deletes an existing task object by task id"⟩,
    ⟨"delete_task_by_name", .delete_task_by_name, "Deletes an existing task object for a given project name and for a given task name"⟩ ]

namespace AsanaTools

/-- AsanaTools.create_project: direct pass-through to the store. -/
def create_project (db : AsanaDb) (project_id project_name : String) :
    AsanaDb × AsanaProject :=
  Asana_Api.create_project db project_id project_name

/-- AsanaTools.get_project_id: direct pass-through to the store. -/
def get_project_id (db : AsanaDb) (project_name : String) : Option String :=
  Asana_Api.get_project_id db project_name

/-- AsanaTools.get_project_by_id: direct pass-through to the store. -/
def get_project_by_id (db : AsanaDb) (project_id : String) : Option AsanaProject :=
  Asana_Api.get_project_by_id db project_id

/-- AsanaTools.get_project_by_name: direct pass-through to the store. -/
def get_project_by_name (db : AsanaDb) (project_name : String) : Option AsanaProject :=
  Asana_Api.get_project_by_name db project_name

/-- AsanaTools.get_projects: direct pass-through to the store. -/
def get_projects (db : AsanaDb) : List AsanaProject :=
  Asana_Api.get_projects db

/-- AsanaTools.update_project: direct pass-through to the store. -/
def update_project (db : AsanaDb) (project_id : String) (model : AsanaProjectUpdate) :
    AsanaDb × Option AsanaProject :=
  Asana_Api.update_project db project_id model

/-- AsanaTools.delete_project_by_id: direct pass-through to the store. -/
def delete_project_by_id (db : AsanaDb) (project_id : Option String) : AsanaDb × Bool :=
  Asana_Api.delete_project_by_id db project_id

/-- AsanaTools.delete_project: direct pass-through to the store. -/
def delete_project (db : AsanaDb) (project_name : String) : AsanaDb × Bool :=
  Asana_Api.delete_project db project_name

/-- AsanaTools.create_task: direct pass-through to the store. -/
def create_task (db : AsanaDb) (today task_id project_id task_name : String)
    (due_date : Option String := none) (status : String := "Not Started") :
    AsanaDb × AsanaTask :=
  Asana_Api.create_task db today task_id project_id task_name due_date status

/-- AsanaTools.get_task_by_id: direct pass-through to the store. -/
def get_task_by_id (db : AsanaDb) (task_id : String) : Option AsanaTask :=
  Asana_Api.get_task_by_id db task_id

/-- AsanaTools.get_task_by_name: direct pass-through to the store. -/
def get_task_by_name (db : AsanaDb) (project_name name : String) : Option AsanaTask :=
  Asana_Api.get_task_by_name db project_name name

/-- AsanaTools.get_tasks_by_project_id: direct pass-through to the store. -/
def get_tasks_by_project_id (db : AsanaDb) (project_id : String) : List AsanaTask :=
  Asana_Api.get_tasks_by_project_id db project_id

/-- AsanaTools.get_tasks_by_project_name: direct pass-through to the store. -/
def get_tasks_by_project_name (db : AsanaDb) (project_name : String) : List AsanaTask :=
  Asana_Api.get_tasks_by_project_name db project_name

/-- AsanaTools.update_task_status: direct pass-through to the store. -/
def update_task_status (db : AsanaDb) (task_id status : String) : AsanaDb × Bool :=
  Asana_Api.update_task_status db task_id status

/-- AsanaTools.update_task: json.loads the model string into an
AsanaTaskUpdate (the JSON decoder lives in the Python standard library and is
passed here as the decode argument; a decode failure raises, modelled as the
error case) and delegate to the store. -/
def update_task (decode : String → Option AsanaTaskUpdate) (db : AsanaDb)
    (task_id model : String) : Except String (AsanaDb × Option AsanaTask) :=
  match decode model with
  | some data_model => .ok (Asana_Api.update_task db task_id data_model)
  | none => .error "InvalidInput: undecodable update JSON"

/-- AsanaTools.delete_task_by_id: direct pass-through to the store. -/
def delete_task_by_id (db : AsanaDb) (task_id : String) : AsanaDb × Bool :=
  Asana_Api.delete_task_by_id db task_id

/-- AsanaTools.delete_task_by_name: direct pass-through to the store. -/
def delete_task_by_name (db : AsanaDb) (project_name name : String) : AsanaDb × Bool :=
  Asana_Api.delete_task_by_name db project_name name

end AsanaTools

/-! ### Call-centre router, graph variant
(src/design_patterns/supervisor/call_centre_multi_agent.py)

CallCentre.GraphState is a plain class whose attributes are all declared at
class level: prompt (None), specialist (a pydantic Field default), response
(None), history (a MessageHistory object constructed once, when the class
body is evaluated) and usage (a Usage object, likewise constructed once).
The code only ever rebinds prompt, specialist and response on the instance
(ask_async and Supervisor.run), while history and usage are only mutated
through the shared objects (MessageHistory.assign / remove_part_kind mutate
the object in place, and agent.run accumulates into the Usage object in
place).  Creating a new GraphState instance therefore shares the same two
objects with every previous instance.  The embedding keeps the contents of
those two class-level objects (historyObj, usageObj) alongside the
instance-level attributes; reset_state rebinds self.state to a fresh
instance, which resets only the instance-level attributes. -/

/-- The Specialist enumeration. -/
inductive Specialist
  | general
  | billing
  | account
  | products
  | services
  | technical
deriving DecidableEq, Repr

/-- The pydantic_ai Usage accumulator (requests and token counters). -/
structure Usage where
  requests : Nat
  request_tokens : Nat
  response_tokens : Nat
  total_tokens : Nat
deriving DecidableEq, Repr

/-- A fresh Usage(), all counters zero. -/
def Usage.zero : Usage := ⟨0, 0, 0, 0⟩

/-- In-place accumulation performed by agent.run on the shared Usage. -/
def Usage.add (a b : Usage) : Usage :=
  ⟨a.requests + b.requests, a.request_tokens + b.request_tokens,
   a.response_tokens + b.response_tokens, a.total_tokens + b.total_tokens⟩

/-- The CallCentreResponse model. -/
structure CallCentreResponse where
  specialist : Specialist
  response : Option String
  usage : Option Usage
deriving DecidableEq, Repr

/-- The supervisor agent's structured result type
(CallCentre.Supervisor.Response). -/
structure SupervisorDecision where
  specialist : Specialist
  general_response : Option String
deriving DecidableEq, Repr

/-- Oracle for one supervisor agent.run call: the structured decision, the
transcript returned by result.all_messages(), and the usage it accumulated
into the shared counter. -/
structure SupOracle where
  data : SupervisorDecision
  all_messages : List Message
  usageDelta : Usage
deriving DecidableEq, Repr

/-- Oracle for one specialist agent.run call: the free-text answer, the
transcript, and the accumulated usage. -/
structure SpecOracle where
  data : String
  all_messages : List Message
  usageDelta : Usage
deriving DecidableEq, Repr

/-- One session of the graph call centre.  historyObj and usageObj are the
contents of the two class-level objects shared by every GraphState instance;
prompt, specialist and response are the attributes of the current instance
(none meaning the attribute was never assigned on the instance, so a read
falls back to the class default). -/
structure CallCentreSession where
  historyObj : List Message
  usageObj : Usage
  prompt : Option String
  specialist : Option Specialist
  response : Option CallCentreResponse
deriving DecidableEq, Repr

/-- The session right after CallCentre.__init__ ran reset_state on a fresh
process: the class-level MessageHistory and Usage are still empty/zero. -/
def initialCallCentreSession : CallCentreSession :=
  { historyObj := [], usageObj := Usage.zero,
    prompt := none, specialist := none, response := none }

namespace CallCentre

/-- The graph nodes (CallCentre.Supervisor and the three specialists). -/
inductive CCNode
  | supervisor
  | billingAccount
  | productService
  | technical
deriving DecidableEq, Repr

/-- CallCentre.Specialist.finalize: strip system-prompt parts from the shared
history and store a CallCentreResponse built from the state's specialist, the
given response text and the shared usage.  ctx.state.specialist is always
assigned by Supervisor.run before any finalize call; the unreachable unset
read is defaulted to General. -/
def finalize (response : Option String) (s : CallCentreSession) : CallCentreSession :=
  { s with
    historyObj := MessageHistory.remove_part_kind "system-prompt" s.historyObj,
    response := some { specialist := s.specialist.getD Specialist.general,
                       response := response,
                       usage := some s.usageObj } }

/-- CallCentre.Supervisor.run with its agent call given by the oracle: when a
response is already set, end immediately (End(ctx.state.response)); otherwise
run the agent (accumulating usage), assign the transcript to the shared
history and strip system-prompt parts, record the decision's specialist, and
route Billing/Account, Products/Services and Technical to their specialist
nodes; any other decision finalizes with the general_response and ends.  The
first component is the next node, none meaning End. -/
def supervisorRun (o : SupOracle) (s : CallCentreSession) :
    Option CCNode × CallCentreSession :=
  match s.response with
  | some _ => (none, s)
  | none =>
    let s1 : CallCentreSession :=
      { s with usageObj := s.usageObj.add o.usageDelta,
               historyObj := MessageHistory.remove_part_kind "system-prompt" o.all_messages,
               specialist := some o.data.specialist }
    match o.data.specialist with
    | .account | .billing => (some .billingAccount, s1)
    | .products | .services => (some .productService, s1)
    | .technical => (some .technical, s1)
    | .general => (none, finalize o.data.general_response s1)

/-- The run method shared in shape by BillingAccountSpecialist,
TechnicalSupportSpecialist and ProductServiceSpecialist (they differ only in
their agent's system prompt, which lives behind the oracle): run the agent
(accumulating usage), assign the transcript to the shared history, finalize
with the free-text answer, and return to the Supervisor node. -/
def specialistRun (o : SpecOracle) (s : CallCentreSession) :
    Option CCNode × CallCentreSession :=
  let s1 : CallCentreSession :=
    { s with usageObj := s.usageObj.add o.usageDelta,
             historyObj := o.all_messages }
  (some .supervisor, finalize (some o.data) s1)

/-- The pydantic_graph run loop: execute nodes until one returns End,
recording the visited nodes.  Oracles are indexed by invocation count, one
stream for supervisor calls and one for specialist calls.  Fuel is a
modelling device only: a single turn provably visits at most three nodes. -/
def runGraph (sups : Nat → SupOracle) (specs : Nat → SpecOracle) :
    Nat → Nat → Nat → CCNode → CallCentreSession →
    List CCNode × CallCentreSession
  | 0, _, _, _, s => ([], s)
  | fuel + 1, si, pi, .supervisor, s =>
    match supervisorRun (sups si) s with
    | (none, s1) => ([.supervisor], s1)
    | (some nxt, s1) =>
      let r := runGraph sups specs fuel (si + 1) pi nxt s1
      (.supervisor :: r.1, r.2)
  | fuel + 1, si, pi, .billingAccount, s =>
    let step := specialistRun (specs pi) s
    let r := runGraph sups specs fuel si (pi + 1) .supervisor step.2
    (.billingAccount :: r.1, r.2)
  | fuel + 1, si, pi, .productService, s =>
    let step := specialistRun (specs pi) s
    let r := runGraph sups specs fuel si (pi + 1) .supervisor step.2
    (.productService :: r.1, r.2)
  | fuel + 1, si, pi, .technical, s =>
    let step := specialistRun (specs pi) s
    let r := runGraph sups specs fuel si (pi + 1) .supervisor step.2
    (.technical :: r.1, r.2)

/-- CallCentre.ask_async: set the instance's prompt, clear its response, run
the graph from the Supervisor node, and return the state's response (the
visited-node list is carried alongside). -/
def ask_async (sups : Nat → SupOracle) (specs : Nat → SpecOracle)
    (s : CallCentreSession) (prompt : String) :
    List CCNode × CallCentreSession :=
  runGraph sups specs 4 0 0 .supervisor
    { s with prompt := some prompt, response := none }

/-- CallCentre.reset_state: self.state = CallCentre.GraphState().  The fresh
instance has no instance-level attributes, so prompt, specialist and response
read as their class defaults again, while the class-level history and usage
objects (and hence their contents) are shared unchanged. -/
def reset_state (s : CallCentreSession) : CallCentreSession :=
  { s with prompt := none, specialist := none, response := none }

end CallCentre

/-! ### City Insights pipeline
(src/design_patterns/prompt_chaining/city_insights.py) -/

/-- The CityDetailsResponse model: every field independently optional. -/
structure CityDetailsResponse where
  city : Option String
  country : Option String
  region : Option String
  country_capital : Option String
  region_capital : Option String
deriving DecidableEq, Repr

/-- The CityDetailResponse model returned by get_details_async. -/
structure CityDetailResponse where
  city_details : Option CityDetailsResponse
  summarized_history : Option String
deriving DecidableEq, Repr

/-- The CityInsightsState shared by the three pipeline stages. -/
structure CityInsightsState where
  prompt : Option String
  city_details : Option CityDetailsResponse
  brief_history : Option String
  summarized : Option String
  usage : Usage
deriving DecidableEq, Repr

/-- Oracle for the Stage-1 (CityDetails) agent call: the structured record
and the accumulated usage. -/
structure Stage1Oracle where
  data : CityDetailsResponse
  usageDelta : Usage
deriving DecidableEq, Repr

/-- Oracle for a free-text agent call (Stages 2 and 3). -/
structure TextOracle where
  data : String
  usageDelta : Usage
deriving DecidableEq, Repr

namespace CityInsights

/-- The three pipeline nodes. -/
inductive CityNode
  | cityDetails
  | cityHistory
  | summarizeResult
deriving DecidableEq, Repr

/-- CityInsights.CityDetails.run: run the Stage-1 agent (accumulating usage),
store its structured record in city_details, and End(None) when the record's
city field is None, else advance to CityHistory. -/
def cityDetailsRun (o : Stage1Oracle) (s : CityInsightsState) :
    Option CityNode × CityInsightsState :=
  let s1 : CityInsightsState :=
    { s with usage := s.usage.add o.usageDelta, city_details := some o.data }
  if o.data.city = none then (none, s1) else (some .cityHistory, s1)

/-- CityInsights.CityHistory.run: run the Stage-2 agent on the resolved city
(accumulating usage), store the narrative, advance to SummarizeResult. -/
def cityHistoryRun (o : TextOracle) (s : CityInsightsState) :
    Option CityNode × CityInsightsState :=
  (some .summarizeResult,
   { s with usage := s.usage.add o.usageDelta, brief_history := some o.data })

/-- CityInsights.SummarizeResult.run: run the Stage-3 agent on the narrative
(accumulating usage), store the summary, End(None). -/
def summarizeRun (o : TextOracle) (s : CityInsightsState) :
    Option CityNode × CityInsightsState :=
  (none, { s with usage := s.usage.add o.usageDelta, summarized := some o.data })

/-- The pydantic_graph run loop for the pipeline, recording visited nodes.
Fuel is a modelling device only: a run provably visits at most three nodes. -/
def runCityGraph (o1 : Stage1Oracle) (o2 o3 : TextOracle) :
    Nat → CityNode → CityInsightsState → List CityNode × CityInsightsState
  | 0, _, s => ([], s)
  | fuel + 1, .cityDetails, s =>
    match cityDetailsRun o1 s with
    | (none, s1) => ([.cityDetails], s1)
    | (some nxt, s1) =>
      let r := runCityGraph o1 o2 o3 fuel nxt s1
      (.cityDetails :: r.1, r.2)
  | fuel + 1, .cityHistory, s =>
    let step := cityHistoryRun o2 s
    let r := runCityGraph o1 o2 o3 fuel .summarizeResult step.2
    (.cityHistory :: r.1, r.2)
  | _ + 1, .summarizeResult, s =>
    let step := summarizeRun o3 s
    ([.summarizeResult], step.2)

/-- CityInsights.get_details_async: fresh CityInsightsState carrying the
prompt, run the graph from CityDetails, and build the result.  The source
returns graphState.city_details when that attribute is truthy and None
otherwise; a pydantic model instance is always truthy and the attribute is
otherwise None, so the conditional is the identity on the optional value. -/
def get_details_async (o1 : Stage1Oracle) (o2 o3 : TextOracle) (prompt : String) :
    CityDetailResponse × List CityNode :=
  let s0 : CityInsightsState :=
    { prompt := some prompt, city_details := none, brief_history := none,
      summarized := none, usage := Usage.zero }
  let r := runCityGraph o1 o2 o3 4 .cityDetails s0
  ({ city_details := r.2.city_details, summarized_history := r.2.summarized }, r.1)

end CityInsights

/-! ### Claim theorems -/

/-- C8: remove_part_kind removes every part of the given kind from every
message, leaves the parts of other kinds in their original order (the result
is exactly the kind-filter of each message's parts), never removes a message,
is idempotent, and is the identity on a history containing no parts of that
kind. -/
theorem C8_remove_part_kind_spec (h : List Message) (k : String) :
    MessageHistory.remove_part_kind k h
        = h.map (fun m => { m with parts := m.parts.filter (fun p => p.part_kind != k) }) ∧
    (∀ m ∈ MessageHistory.remove_part_kind k h, ∀ p ∈ m.parts, p.part_kind ≠ k) ∧
    (MessageHistory.remove_part_kind k h).length = h.length ∧
    MessageHistory.remove_part_kind k (MessageHistory.remove_part_kind k h)
        = MessageHistory.remove_part_kind k h ∧
    ((∀ m ∈ h, ∀ p ∈ m.parts, p.part_kind ≠ k) → MessageHistory.remove_part_kind k h = h) := by
  have hfilter : ∀ l : List Message, MessageHistory.remove_part_kind k l
      = l.map (fun m => { m with parts := m.parts.filter (fun p => p.part_kind != k) }) := by
    intro l; simp [MessageHistory.remove_part_kind, stripLoop_eq_filter]
  refine ⟨hfilter h, ?_, ?_, ?_, ?_⟩
  · intro m hm p hp
    rw [hfilter h] at hm
    obtain ⟨m0, _, rfl⟩ := List.mem_map.mp hm
    have := (List.mem_filter.mp hp).2
    simpa using this
  · rw [hfilter h]; simp
  · rw [hfilter h, hfilter]
    rw [List.map_map]
    apply List.map_congr_left
    intro m _
    have : (m.parts.filter (fun p => p.part_kind != k)).filter (fun p => p.part_kind != k)
        = m.parts.filter (fun p => p.part_kind != k) :=
      List.filter_eq_self.mpr (fun p hp => (List.mem_filter.mp hp).2)
    simp [Function.comp, this]
  · intro hnone
    rw [hfilter h]
    conv_rhs => rw [← List.map_id h]
    apply List.map_congr_left
    intro m hm
    have : m.parts.filter (fun p => p.part_kind != k) = m.parts :=
      List.filter_eq_self.mpr (fun p hp => by simpa using hnone m hm p hp)
    simp [this]

/-- C8 witness: on a concrete history with no system-prompt parts the
operation is the identity, and after one application a second application
changes nothing. -/
theorem C8_remove_part_kind_witness :
    MessageHistory.remove_part_kind "system-prompt"
        [⟨.request, [⟨.userPromptPart, "hi"⟩]⟩, ⟨.response, [⟨.textPart, "hello"⟩]⟩]
      = [⟨.request, [⟨.userPromptPart, "hi"⟩]⟩, ⟨.response, [⟨.textPart, "hello"⟩]⟩] :=
  (C8_remove_part_kind_spec
      [⟨.request, [⟨.userPromptPart, "hi"⟩]⟩, ⟨.response, [⟨.textPart, "hello"⟩]⟩]
      "system-prompt").2.2.2.2 (by decide)

/-- C9: append wraps a request-family part into a new request message holding
exactly that part, a response-family part into a new response message holding
exactly that part, appends it after the unchanged earlier messages, and on a
value of any other kind raises (InvalidInput/TypeError) leaving the history
unchanged. -/
theorem C9_append_spec (msgs : List Message) (p : MsgPart) (t : String) :
    (isRequestPart p.cls = true →
      MessageHistory.append msgs (.part p) = (msgs ++ [⟨.request, [p]⟩], none)) ∧
    (isResponsePart p.cls = true →
      MessageHistory.append msgs (.part p) = (msgs ++ [⟨.response, [p]⟩], none)) ∧
    ((MessageHistory.append msgs (.nonPart t)).1 = msgs ∧
      (MessageHistory.append msgs (.nonPart t)).2.isSome = true) := by
  refine ⟨?_, ?_, ?_, ?_⟩
  · intro hreq
    simp [MessageHistory.append, hreq]
  · intro hresp
    have hreq : isRequestPart p.cls = false := by
      cases hc : p.cls <;> simp_all [isRequestPart, isResponsePart]
    simp [MessageHistory.append, hreq, hresp]
  · simp [MessageHistory.append]
  · simp [MessageHistory.append]

/-- C9 witness: a user-prompt part is framed as a request, a text part as a
response, and a non-part value fails leaving the history unchanged. -/
theorem C9_append_witness :
    MessageHistory.append [] (.part ⟨.userPromptPart, "hi"⟩)
        = ([⟨.request, [⟨.userPromptPart, "hi"⟩]⟩], none) ∧
    MessageHistory.append [] (.part ⟨.textPart, "hello"⟩)
        = ([⟨.response, [⟨.textPart, "hello"⟩]⟩], none) ∧
    (MessageHistory.append [] (.nonPart "ModelRequest")).1 = [] :=
  ⟨(C9_append_spec [] ⟨.userPromptPart, "hi"⟩ "ModelRequest").1 (by decide),
   (C9_append_spec [] ⟨.textPart, "hello"⟩ "ModelRequest").2.1 (by decide),
   (C9_append_spec [] ⟨.userPromptPart, "hi"⟩ "ModelRequest").2.2.1⟩

/-- C5: create_task with due date omitted (None), empty or the literal
"today" stores and returns the current date as due date; any other due date
string is preserved verbatim; with status omitted both the stored and the
returned status are "Not Started". -/
theorem C5_create_task_defaults (db : AsanaDb)
    (today task_id project_id task_name : String) (due_date : Option String) :
    ((due_date = none ∨ due_date = some "" ∨ due_date = some "today") →
      (Asana_Api.create_task db today task_id project_id task_name due_date).2.due_date
          = today ∧
      (Asana_Api.create_task db today task_id project_id task_name due_date).1.tasks
          = db.tasks ++ [⟨task_id, project_id, task_name, today, "Not Started"⟩]) ∧
    (∀ d : String, due_date = some d → d ≠ "" → d ≠ "today" →
      (Asana_Api.create_task db today task_id project_id task_name due_date).2.due_date
          = d ∧
      (Asana_Api.create_task db today task_id project_id task_name due_date).1.tasks
          = db.tasks ++ [⟨task_id, project_id, task_name, d, "Not Started"⟩]) ∧
    (Asana_Api.create_task db today task_id project_id task_name due_date).2.status
        = "Not Started" ∧
    (∀ r ∈ (Asana_Api.create_task db today task_id project_id task_name due_date).1.tasks,
       r ∉ db.tasks → r.rowStatus = "Not Started") := by
  refine ⟨?_, ?_, ?_, ?_⟩
  · intro hdef
    constructor <;> simp [Asana_Api.create_task, hdef]
  · intro d hd hne hnt
    subst hd
    have hcond : ¬ (some d = (none : Option String) ∨ some d = some ""
        ∨ some d = some "today") := by
      simp [hne, hnt]
    constructor <;> simp [Asana_Api.create_task, hcond, hne, hnt]
  · simp [Asana_Api.create_task]
  · intro r hr hnotin
    simp only [Asana_Api.create_task, List.mem_append] at hr
    rcases hr with h | h
    · exact absurd h hnotin
    · simp only [List.mem_singleton] at h
      subst h; rfl

/-- C5 witness: with due date omitted the stored date is the current date;
with the literal "today" likewise; an explicit other date is kept verbatim;
the omitted status is "Not Started". -/
theorem C5_create_task_witness :
    (Asana_Api.create_task ⟨[], []⟩ "2026-10-12" "t1" "p1" "T" none).2.due_date
        = "2026-10-12" ∧
    (Asana_Api.create_task ⟨[], []⟩ "2026-10-12" "t2" "p1" "T" (some "today")).2.due_date
        = "2026-10-12" ∧
    (Asana_Api.create_task ⟨[], []⟩ "2026-10-12" "t3" "p1" "T" (some "2030-01-01")).2.due_date
        = "2030-01-01" ∧
    (Asana_Api.create_task ⟨[], []⟩ "2026-10-12" "t1" "p1" "T" none).2.status
        = "Not Started" :=
  ⟨((C5_create_task_defaults ⟨[], []⟩ "2026-10-12" "t1" "p1" "T" none).1
      (Or.inl rfl)).1,
   ((C5_create_task_defaults ⟨[], []⟩ "2026-10-12" "t2" "p1" "T" (some "today")).1
      (Or.inr (Or.inr rfl))).1,
   ((C5_create_task_defaults ⟨[], []⟩ "2026-10-12" "t3" "p1" "T" (some "2030-01-01")).2.1
      "2030-01-01" rfl (by decide) (by decide)).1,
   (C5_create_task_defaults ⟨[], []⟩ "2026-10-12" "t1" "p1" "T" none).2.2.1⟩

/-- C1: for an existing task, update_task writes the payload's name, due date
and status into the stored row (a subsequent lookup sees them), while the
returned in-memory task carries the payload's name and due date correctly but
has its status mirrored from the due-date value; for an id with no stored
task it returns None and changes nothing. -/
theorem C1_update_task_spec (db : AsanaDb) (task_id : String) (u : AsanaTaskUpdate) :
    (∀ t, Asana_Api.get_task_by_id db task_id = some t →
      (Asana_Api.update_task db task_id u).2
          = some { t with name := u.name, due_date := u.due_date, status := u.due_date } ∧
      Asana_Api.get_task_by_id (Asana_Api.update_task db task_id u).1 task_id
          = some { t with name := u.name, due_date := u.due_date, status := u.status }) ∧
    (Asana_Api.get_task_by_id db task_id = none →
      Asana_Api.update_task db task_id u = (db, none)) := by
  constructor
  · intro t ht
    have hpair : Asana_Api.update_task db task_id u
        = ({ db with tasks := db.tasks.map (fun r =>
              if nocaseEq r.rowId task_id then
                { r with rowName := u.name, rowDueDate := u.due_date,
                         rowStatus := u.status }
              else r) },
           some { t with name := u.name, due_date := u.due_date,
                         status := u.due_date }) := by
      rw [Asana_Api.update_task, ht]
    refine ⟨by rw [hpair], ?_⟩
    obtain ⟨row, hfind, hmap⟩ :=
      Option.map_eq_some'.mp (by simpa [Asana_Api.get_task_by_id] using ht)
    have hrow := List.find?_some hfind
    rw [hpair]
    simp only [Asana_Api.get_task_by_id, List.find?_map]
    have hcomp : ((fun r : TaskRow => nocaseEq r.rowId task_id) ∘ (fun r : TaskRow =>
        if nocaseEq r.rowId task_id then
          { r with rowName := u.name, rowDueDate := u.due_date,
                   rowStatus := u.status }
        else r)) = (fun r : TaskRow => nocaseEq r.rowId task_id) := by
      funext r
      by_cases h : nocaseEq r.rowId task_id <;> simp [h]
    rw [hcomp, hfind]
    subst hmap
    simp [Asana_Api.map_task, hrow]
  · intro ht
    rw [Asana_Api.update_task, ht]

/-- C1 witness: in a store holding one task, updating it returns an entity
whose status equals the payload's due date while the stored row holds the
payload's status; updating a missing id returns None and leaves the store
unchanged. -/
theorem C1_update_task_witness :
    (Asana_Api.update_task ⟨[⟨"p1", "Alpha"⟩], [⟨"t1", "p1", "T", "2030-01-01", "Not Started"⟩]⟩
        "t1" ⟨"T2", "2030-02-02", "Completed"⟩).2
      = some ⟨"t1", "p1", "T2", "2030-02-02", "2030-02-02", "https://example.com/tasks/t1"⟩ ∧
    Asana_Api.get_task_by_id
        (Asana_Api.update_task ⟨[⟨"p1", "Alpha"⟩], [⟨"t1", "p1", "T", "2030-01-01", "Not Started"⟩]⟩
          "t1" ⟨"T2", "2030-02-02", "Completed"⟩).1 "t1"
      = some ⟨"t1", "p1", "T2", "2030-02-02", "Completed", "https://example.com/tasks/t1"⟩ ∧
    Asana_Api.update_task ⟨[⟨"p1", "Alpha"⟩], [⟨"t1", "p1", "T", "2030-01-01", "Not Started"⟩]⟩
        "missing" ⟨"T2", "2030-02-02", "Completed"⟩
      = (⟨[⟨"p1", "Alpha"⟩], [⟨"t1", "p1", "T", "2030-01-01", "Not Started"⟩]⟩, none) :=
  ⟨((C1_update_task_spec ⟨[⟨"p1", "Alpha"⟩], [⟨"t1", "p1", "T", "2030-01-01", "Not Started"⟩]⟩
        "t1" ⟨"T2", "2030-02-02", "Completed"⟩).1
      ⟨"t1", "p1", "T", "2030-01-01", "Not Started", "https://example.com/tasks/t1"⟩
      (by decide)).1,
   ((C1_update_task_spec ⟨[⟨"p1", "Alpha"⟩], [⟨"t1", "p1", "T", "2030-01-01", "Not Started"⟩]⟩
        "t1" ⟨"T2", "2030-02-02", "Completed"⟩).1
      ⟨"t1", "p1", "T", "2030-01-01", "Not Started", "https://example.com/tasks/t1"⟩
      (by decide)).2,
   (C1_update_task_spec ⟨[⟨"p1", "Alpha"⟩], [⟨"t1", "p1", "T", "2030-01-01", "Not Started"⟩]⟩
        "missing" ⟨"T2", "2030-02-02", "Completed"⟩).2 (by decide)⟩

/-- Unfolding of the NOCASE comparison into equality of case-folded
character lists. -/
lemma nocaseEq_eq_true_iff (a b : String) :
    nocaseEq a b = true ↔ a.data.map Char.toLower = b.data.map Char.toLower := by
  simp [nocaseEq]

/-- C4 counterexample: on the empty store, no project with id "p1" exists,
yet delete_project_by_id "p1" returns true, contradicting the claim that it
returns false whenever no project with that id exists. -/
theorem C4_counterexample :
    Asana_Api.get_project_by_id ⟨[], []⟩ "p1" = none ∧
    (Asana_Api.delete_project_by_id ⟨[], []⟩ (some "p1")).2 = true := by
  exact ⟨rfl, by decide⟩

/-- C4 amended: delete_project_by_id deletes every task whose project id
equals the given id and every project row with that id, so subsequent
lookups of the project and (under the task-id primary-key invariant) of
those tasks return absent; it returns false exactly when the id is absent
(None) or empty, and true for every non-empty id, whether or not a project
with that id exists. -/
theorem C4_delete_cascade (db : AsanaDb) (pid : String) (hpid : pid ≠ "")
    (hids : (db.tasks.map (fun r => r.rowId.data.map Char.toLower)).Nodup) :
    (Asana_Api.delete_project_by_id db (some pid)).2 = true ∧
    (∀ t ∈ (Asana_Api.delete_project_by_id db (some pid)).1.tasks,
       t.rowProjectId ≠ pid) ∧
    Asana_Api.get_project_by_id (Asana_Api.delete_project_by_id db (some pid)).1 pid
        = none ∧
    (∀ t ∈ db.tasks, t.rowProjectId = pid →
       Asana_Api.get_task_by_id (Asana_Api.delete_project_by_id db (some pid)).1 t.rowId
         = none) ∧
    (∀ oid : Option String,
       ((Asana_Api.delete_project_by_id db oid).2 = false ↔ oid = none ∨ oid = some "")) := by
  have hstep : Asana_Api.delete_project_by_id db (some pid)
      = ({ projects := db.projects.filter (fun r => !(nocaseEq r.rowId pid)),
           tasks := db.tasks.filter (fun r => !(r.rowProjectId == pid)) }, true) := by
    simp [Asana_Api.delete_project_by_id, hpid]
  refine ⟨by rw [hstep], ?_, ?_, ?_, ?_⟩
  · intro t ht
    rw [hstep] at ht
    have := (List.mem_filter.mp ht).2
    simpa using this
  · rw [hstep]
    simp only [Asana_Api.get_project_by_id, Option.map_eq_none']
    rw [List.find?_eq_none]
    intro r hr
    have := (List.mem_filter.mp hr).2
    simpa using this
  · intro t htmem htpid
    rw [hstep]
    simp only [Asana_Api.get_task_by_id, Option.map_eq_none']
    rw [List.find?_eq_none]
    intro x hx
    have hxmem : x ∈ db.tasks := (List.mem_filter.mp hx).1
    have hxpid : x.rowProjectId ≠ pid := by
      have := (List.mem_filter.mp hx).2
      simpa using this
    intro hmatch
    have hfold : x.rowId.data.map Char.toLower = t.rowId.data.map Char.toLower :=
      (nocaseEq_eq_true_iff _ _).mp hmatch
    have hxt : x = t := List.inj_on_of_nodup_map hids hxmem htmem hfold
    exact hxpid (hxt ▸ htpid)
  · intro oid
    match oid with
    | none => simp [Asana_Api.delete_project_by_id]
    | some s =>
      by_cases hs : s = "" <;> simp [Asana_Api.delete_project_by_id, hs]

/-- C4 witness: project p1 with tasks t1 and t2; deleting p1 removes the
project and both tasks and all three lookups return absent, while deleting a
missing non-empty id still returns true and only the empty or absent id
returns false. -/
theorem C4_delete_cascade_witness :
    (Asana_Api.delete_project_by_id
        ⟨[⟨"p1", "Alpha"⟩],
         [⟨"t1", "p1", "T1", "2030-01-01", "Not Started"⟩,
          ⟨"t2", "p1", "T2", "2030-01-02", "Not Started"⟩]⟩ (some "p1")).2 = true ∧
    Asana_Api.get_project_by_id
        (Asana_Api.delete_project_by_id
          ⟨[⟨"p1", "Alpha"⟩],
           [⟨"t1", "p1", "T1", "2030-01-01", "Not Started"⟩,
            ⟨"t2", "p1", "T2", "2030-01-02", "Not Started"⟩]⟩ (some "p1")).1 "p1" = none ∧
    Asana_Api.get_task_by_id
        (Asana_Api.delete_project_by_id
          ⟨[⟨"p1", "Alpha"⟩],
           [⟨"t1", "p1", "T1", "2030-01-01", "Not Started"⟩,
            ⟨"t2", "p1", "T2", "2030-01-02", "Not Started"⟩]⟩ (some "p1")).1 "t1" = none ∧
    Asana_Api.get_task_by_id
        (Asana_Api.delete_project_by_id
          ⟨[⟨"p1", "Alpha"⟩],
           [⟨"t1", "p1", "T1", "2030-01-01", "Not Started"⟩,
            ⟨"t2", "p1", "T2", "2030-01-02", "Not Started"⟩]⟩ (some "p1")).1 "t2" = none ∧
    ((Asana_Api.delete_project_by_id
          ⟨[⟨"p1", "Alpha"⟩],
           [⟨"t1", "p1", "T1", "2030-01-01", "Not Started"⟩,
            ⟨"t2", "p1", "T2", "2030-01-02", "Not Started"⟩]⟩ (some "")).2 = false ↔
       (some "" : Option String) = none ∨ (some "" : Option String) = some "") :=
  ⟨(C4_delete_cascade
      ⟨[⟨"p1", "Alpha"⟩],
       [⟨"t1", "p1", "T1", "2030-01-01", "Not Started"⟩,
        ⟨"t2", "p1", "T2", "2030-01-02", "Not Started"⟩]⟩ "p1" (by decide) (by decide)).1,
   (C4_delete_cascade
      ⟨[⟨"p1", "Alpha"⟩],
       [⟨"t1", "p1", "T1", "2030-01-01", "Not Started"⟩,
        ⟨"t2", "p1", "T2", "2030-01-02", "Not Started"⟩]⟩ "p1" (by decide) (by decide)).2.2.1,
   (C4_delete_cascade
      ⟨[⟨"p1", "Alpha"⟩],
       [⟨"t1", "p1", "T1", "2030-01-01", "Not Started"⟩,
        ⟨"t2", "p1", "T2", "2030-01-02", "Not Started"⟩]⟩ "p1" (by decide) (by decide)).2.2.2.1
      ⟨"t1", "p1", "T1", "2030-01-01", "Not Started"⟩ (by decide) rfl,
   (C4_delete_cascade
      ⟨[⟨"p1", "Alpha"⟩],
       [⟨"t1", "p1", "T1", "2030-01-01", "Not Started"⟩,
        ⟨"t2", "p1", "T2", "2030-01-02", "Not Started"⟩]⟩ "p1" (by decide) (by decide)).2.2.2.1
      ⟨"t2", "p1", "T2", "2030-01-02", "Not Started"⟩ (by decide) rfl,
   (C4_delete_cascade
      ⟨[⟨"p1", "Alpha"⟩],
       [⟨"t1", "p1", "T1", "2030-01-01", "Not Started"⟩,
        ⟨"t2", "p1", "T2", "2030-01-02", "Not Started"⟩]⟩ "p1" (by decide) (by decide)).2.2.2.2
      (some "")⟩

/-- C10: the Name column carries no uniqueness constraint, so create_project
always inserts a new row with the given fresh id even when a project with a
NOCASE-equal name already exists; afterwards both name lookups still return
the first matching project in rowid order (the pre-existing one), and the
newly inserted project is unreachable through name lookup. -/
theorem C10_duplicate_project_names (db : AsanaDb) (new_id new_name : String)
    (hdup : ∃ r ∈ db.projects, nocaseEq r.rowName new_name = true)
    (hfresh : ∀ r ∈ db.projects, r.rowId ≠ new_id) :
    (Asana_Api.create_project db new_id new_name).2
        = { id := new_id, name := new_name,
            link := "https://example.com/projects/" ++ new_id } ∧
    (Asana_Api.create_project db new_id new_name).1.projects
        = db.projects ++ [⟨new_id, new_name⟩] ∧
    Asana_Api.get_project_id (Asana_Api.create_project db new_id new_name).1 new_name
        = Asana_Api.get_project_id db new_name ∧
    Asana_Api.get_project_by_name (Asana_Api.create_project db new_id new_name).1 new_name
        = Asana_Api.get_project_by_name db new_name ∧
    Asana_Api.get_project_id (Asana_Api.create_project db new_id new_name).1 new_name
        ≠ some new_id := by
  obtain ⟨r0, hr0mem, hr0match⟩ := hdup
  have hsome : (db.projects.find? (fun r => nocaseEq r.rowName new_name)).isSome = true := by
    simp only [List.find?_isSome]
    exact ⟨r0, hr0mem, hr0match⟩
  obtain ⟨rfound, hrfound⟩ := Option.isSome_iff_exists.mp hsome
  have happ : (db.projects ++ [(⟨new_id, new_name⟩ : ProjectRow)]).find?
      (fun r => nocaseEq r.rowName new_name) = some rfound := by
    rw [List.find?_append, hrfound]
    rfl
  have hfoundmem : rfound ∈ db.projects := List.mem_of_find?_eq_some hrfound
  refine ⟨rfl, rfl, ?_, ?_, ?_⟩
  · simp [Asana_Api.get_project_id, Asana_Api.create_project, happ, hrfound]
  · simp [Asana_Api.get_project_by_name, Asana_Api.create_project, happ, hrfound]
  · have hval : Asana_Api.get_project_id (Asana_Api.create_project db new_id new_name).1 new_name
        = some rfound.rowId := by
      simp only [Asana_Api.get_project_id, Asana_Api.create_project]
      rw [happ]
      rfl
    rw [hval]
    intro hcontra
    have heq : rfound.rowId = new_id := by simpa using hcontra
    exact hfresh rfound hfoundmem heq

/-- C10 witness: with project (p1, Alpha) stored, creating another project
named ALPHA with fresh id p2 succeeds and appends a second row, while name
lookups for ALPHA still return p1 and never p2. -/
theorem C10_duplicate_project_names_witness :
    (Asana_Api.create_project ⟨[⟨"p1", "Alpha"⟩], []⟩ "p2" "ALPHA").1.projects
        = [⟨"p1", "Alpha"⟩, ⟨"p2", "ALPHA"⟩] ∧
    Asana_Api.get_project_id (Asana_Api.create_project ⟨[⟨"p1", "Alpha"⟩], []⟩ "p2" "ALPHA").1
        "ALPHA" = Asana_Api.get_project_id ⟨[⟨"p1", "Alpha"⟩], []⟩ "ALPHA" ∧
    Asana_Api.get_project_id (Asana_Api.create_project ⟨[⟨"p1", "Alpha"⟩], []⟩ "p2" "ALPHA").1
        "ALPHA" ≠ some "p2" :=
  ⟨(C10_duplicate_project_names ⟨[⟨"p1", "Alpha"⟩], []⟩ "p2" "ALPHA"
      ⟨⟨"p1", "Alpha"⟩, by decide, by decide⟩
      (by intro r hr; simp only [List.mem_singleton] at hr; subst hr; decide)).2.1,
   (C10_duplicate_project_names ⟨[⟨"p1", "Alpha"⟩], []⟩ "p2" "ALPHA"
      ⟨⟨"p1", "Alpha"⟩, by decide, by decide⟩
      (by intro r hr; simp only [List.mem_singleton] at hr; subst hr; decide)).2.2.1,
   (C10_duplicate_project_names ⟨[⟨"p1", "Alpha"⟩], []⟩ "p2" "ALPHA"
      ⟨⟨"p1", "Alpha"⟩, by decide, by decide⟩
      (by intro r hr; simp only [List.mem_singleton] at hr; subst hr; decide)).2.2.2.2⟩

/-- C2 counterexample: the adapter registers 17 tools, not 18, and 9 task
tools, not 10 (the project count of 8 is right); the registry length and
task-tool count contradict the claim's totals. -/
theorem C2_counterexample :
    asana_tools_registry.length = 17 ∧
    ¬ asana_tools_registry.length = 18 ∧
    (asana_tools_registry.filter (fun t => t.op.isProjectOp)).length = 8 ∧
    (asana_tools_registry.filter (fun t => !t.op.isProjectOp)).length = 9 ∧
    ¬ (asana_tools_registry.filter (fun t => !t.op.isProjectOp)).length = 10 := by
  decide

/-- C2 amended: the adapter registers exactly 17 tool descriptors — 8 project
operations and 9 task operations, one per wrapped store operation, no
operation twice — each with a non-empty name equal to the underlying store
method's name and a non-empty description; and invoking any tool with valid
arguments returns exactly what the underlying store method returns (each
wrapper is a direct pass-through; the update_task wrapper decodes its JSON
payload first and delegates the decoded model). -/
theorem C2_tool_registry (db : AsanaDb) : asana_tools_registry.length = 17 ∧
    (asana_tools_registry.filter (fun t => t.op.isProjectOp)).length = 8 ∧
    (asana_tools_registry.filter (fun t => !t.op.isProjectOp)).length = 9 ∧
    (asana_tools_registry.map (fun t => t.op)).Nodup ∧
    (∀ t ∈ asana_tools_registry,
       t.name ≠ "" ∧ t.description ≠ "" ∧ t.name = t.op.methodName) ∧
    (∀ pid pname, AsanaTools.create_project db pid pname
        = Asana_Api.create_project db pid pname) ∧
    (∀ pname, AsanaTools.get_project_id db pname = Asana_Api.get_project_id db pname) ∧
    (∀ pid, AsanaTools.get_project_by_id db pid = Asana_Api.get_project_by_id db pid) ∧
    (∀ pname, AsanaTools.get_project_by_name db pname
        = Asana_Api.get_project_by_name db pname) ∧
    AsanaTools.get_projects db = Asana_Api.get_projects db ∧
    (∀ pid m, AsanaTools.update_project db pid m = Asana_Api.update_project db pid m) ∧
    (∀ pid, AsanaTools.delete_project_by_id db pid
        = Asana_Api.delete_project_by_id db pid) ∧
    (∀ pname, AsanaTools.delete_project db pname = Asana_Api.delete_project db pname) ∧
    (∀ today tid pid tname dd st, AsanaTools.create_task db today tid pid tname dd st
        = Asana_Api.create_task db today tid pid tname dd st) ∧
    (∀ tid, AsanaTools.get_task_by_id db tid = Asana_Api.get_task_by_id db tid) ∧
    (∀ pname nm, AsanaTools.get_task_by_name db pname nm
        = Asana_Api.get_task_by_name db pname nm) ∧
    (∀ pid, AsanaTools.get_tasks_by_project_id db pid
        = Asana_Api.get_tasks_by_project_id db pid) ∧
    (∀ pname, AsanaTools.get_tasks_by_project_name db pname
        = Asana_Api.get_tasks_by_project_name db pname) ∧
    (∀ tid st, AsanaTools.update_task_status db tid st
        = Asana_Api.update_task_status db tid st) ∧
    (∀ decode tid s m, decode s = some m →
        AsanaTools.update_task decode db tid s = .ok (Asana_Api.update_task db tid m)) ∧
    (∀ tid, AsanaTools.delete_task_by_id db tid = Asana_Api.delete_task_by_id db tid) ∧
    (∀ pname nm, AsanaTools.delete_task_by_name db pname nm
        = Asana_Api.delete_task_by_name db pname nm) := by
  refine ⟨by decide, by decide, by decide, by decide, by decide,
    fun _ _ => rfl, fun _ => rfl, fun _ => rfl, fun _ => rfl, rfl,
    fun _ _ => rfl, fun _ => rfl, fun _ => rfl, fun _ _ _ _ _ _ => rfl,
    fun _ => rfl, fun _ _ => rfl, fun _ => rfl, fun _ => rfl, fun _ _ => rfl,
    ?_, fun _ => rfl, fun _ _ => rfl⟩
  intro decode tid s m hdec
  simp [AsanaTools.update_task, hdec]

/-- C2 witness: registry facts instantiated, one pass-through invocation on a
concrete stored project, and the update_task wrapper delegating a decoded
payload. -/
theorem C2_tool_registry_witness :
    AsanaTools.get_project_id ⟨[⟨"p1", "Alpha"⟩], []⟩ "Alpha"
        = Asana_Api.get_project_id ⟨[⟨"p1", "Alpha"⟩], []⟩ "Alpha" ∧
    AsanaTools.update_task (fun _ => some ⟨"N", "2030-01-01", "Completed"⟩)
        ⟨[⟨"p1", "Alpha"⟩], []⟩ "t1" "payload-json"
      = .ok (Asana_Api.update_task ⟨[⟨"p1", "Alpha"⟩], []⟩ "t1"
          ⟨"N", "2030-01-01", "Completed"⟩) ∧
    ToolDescriptor.name ⟨"create_project", .create_project, "Creates a project by name"⟩
        ≠ "" :=
  ⟨(C2_tool_registry ⟨[⟨"p1", "Alpha"⟩], []⟩).2.2.2.2.2.2.1 "Alpha",
   (C2_tool_registry ⟨[⟨"p1", "Alpha"⟩], []⟩).2.2.2.2.2.2.2.2.2.2.2.2.2.2.2.2.2.2.2.1
     (fun _ => some ⟨"N", "2030-01-01", "Completed"⟩) "t1" "payload-json"
     ⟨"N", "2030-01-01", "Completed"⟩ rfl,
   ((C2_tool_registry ⟨[⟨"p1", "Alpha"⟩], []⟩).2.2.2.2.1
      ⟨"create_project", .create_project, "Creates a project by name"⟩ (by decide)).1⟩

/-- C6: whenever the Stage-1 details record has an absent city field, the
pipeline visits only the CityDetails node — the CityHistory and
SummarizeResult stages are never invoked — and the returned result has an
absent summarized_history. -/
theorem C6_city_insights_short_circuit (o1 : Stage1Oracle) (o2 o3 : TextOracle)
    (prompt : String) (hcity : o1.data.city = none) :
    (CityInsights.get_details_async o1 o2 o3 prompt).2
        = [CityInsights.CityNode.cityDetails] ∧
    (CityInsights.get_details_async o1 o2 o3 prompt).1.summarized_history = none := by
  have hrun : CityInsights.cityDetailsRun o1
      { prompt := some prompt, city_details := none, brief_history := none,
        summarized := none, usage := Usage.zero }
      = (none, { prompt := some prompt, city_details := some o1.data,
                 brief_history := none, summarized := none,
                 usage := Usage.zero.add o1.usageDelta }) := by
    simp [CityInsights.cityDetailsRun, hcity]
  constructor <;>
    simp [CityInsights.get_details_async, CityInsights.runCityGraph, hrun]

/-- C6 witness: a Stage-1 record with no city short-circuits the pipeline on
a concrete prompt. -/
theorem C6_city_insights_witness :
    (CityInsights.get_details_async ⟨⟨none, none, none, none, none⟩, ⟨1, 5, 5, 10⟩⟩
        ⟨"history", ⟨1, 4, 4, 8⟩⟩ ⟨"summary", ⟨1, 3, 3, 6⟩⟩ "gibberish").2
      = [CityInsights.CityNode.cityDetails] ∧
    (CityInsights.get_details_async ⟨⟨none, none, none, none, none⟩, ⟨1, 5, 5, 10⟩⟩
        ⟨"history", ⟨1, 4, 4, 8⟩⟩ ⟨"summary", ⟨1, 3, 3, 6⟩⟩ "gibberish").1.summarized_history
      = none :=
  C6_city_insights_short_circuit ⟨⟨none, none, none, none, none⟩, ⟨1, 5, 5, 10⟩⟩
    ⟨"history", ⟨1, 4, 4, 8⟩⟩ ⟨"summary", ⟨1, 3, 3, 6⟩⟩ "gibberish" rfl

/-- C7: with the supervisor's model decision an oracle input, routing is the
deterministic function of the decision given by the routing table — Billing
and Account to the billing/account node, Products and Services to the
product/service node, Technical to the technical node, and any other
decision (General) ending immediately with a response carrying
general_response; moreover for decision Technical a full turn visits
Supervisor, TechnicalSupportSpecialist, Supervisor and ends with a response
whose specialist field is Technical. -/
theorem C7_routing_determinism (o : SupOracle) (s : CallCentreSession)
    (hresp : s.response = none) :
    ((o.data.specialist = .billing ∨ o.data.specialist = .account) →
       (CallCentre.supervisorRun o s).1 = some .billingAccount) ∧
    ((o.data.specialist = .products ∨ o.data.specialist = .services) →
       (CallCentre.supervisorRun o s).1 = some .productService) ∧
    (o.data.specialist = .technical →
       (CallCentre.supervisorRun o s).1 = some .technical) ∧
    (o.data.specialist = .general →
       (CallCentre.supervisorRun o s).1 = none ∧
       ((CallCentre.supervisorRun o s).2.response.map (fun r => r.specialist)
           = some .general) ∧
       ((CallCentre.supervisorRun o s).2.response.map (fun r => r.response)
           = some o.data.general_response)) ∧
    (∀ (o0 : SupOracle) (sp0 : SpecOracle) (s0 : CallCentreSession) (prompt : String),
       o0.data.specialist = .technical →
       (CallCentre.ask_async (fun _ => o0) (fun _ => sp0) s0 prompt).1
           = [.supervisor, .technical, .supervisor] ∧
       ((CallCentre.ask_async (fun _ => o0) (fun _ => sp0) s0 prompt).2.response.map
           (fun r => r.specialist)) = some .technical) := by
  obtain ⟨hist, usage, pr, sp, resp⟩ := s
  simp only at hresp
  subst hresp
  obtain ⟨⟨dspec, dgen⟩, msgs, du⟩ := o
  refine ⟨?_, ?_, ?_, ?_, ?_⟩
  · rintro (h | h) <;> (simp only at h; subst h; rfl)
  · rintro (h | h) <;> (simp only at h; subst h; rfl)
  · intro h; simp only at h; subst h; rfl
  · intro h; simp only at h; subst h
    exact ⟨rfl, rfl, rfl⟩
  · intro o0 sp0 s0 prompt h0
    obtain ⟨⟨dspec0, dgen0⟩, msgs0, du0⟩ := o0
    simp only at h0
    subst h0
    exact ⟨rfl, rfl⟩

/-- C7 witness: a concrete Technical decision routes the turn through the
technical node and yields a Technical-tagged response, and a concrete
Billing decision routes to the billing/account node. -/
theorem C7_routing_determinism_witness :
    (CallCentre.supervisorRun ⟨⟨.billing, none⟩, [], ⟨1, 2, 3, 5⟩⟩
        initialCallCentreSession).1 = some .billingAccount ∧
    (CallCentre.ask_async (fun _ => ⟨⟨.technical, none⟩, [], ⟨1, 2, 3, 5⟩⟩)
        (fun _ => ⟨"restart the phone", [], ⟨1, 1, 1, 2⟩⟩)
        initialCallCentreSession "my phone turns off").1
      = [.supervisor, .technical, .supervisor] ∧
    ((CallCentre.ask_async (fun _ => ⟨⟨.technical, none⟩, [], ⟨1, 2, 3, 5⟩⟩)
        (fun _ => ⟨"restart the phone", [], ⟨1, 1, 1, 2⟩⟩)
        initialCallCentreSession "my phone turns off").2.response.map
          (fun r => r.specialist)) = some .technical :=
  ⟨(C7_routing_determinism ⟨⟨.billing, none⟩, [], ⟨1, 2, 3, 5⟩⟩
      initialCallCentreSession rfl).1 (Or.inl rfl),
   ((C7_routing_determinism ⟨⟨.billing, none⟩, [], ⟨1, 2, 3, 5⟩⟩
      initialCallCentreSession rfl).2.2.2.2
      ⟨⟨.technical, none⟩, [], ⟨1, 2, 3, 5⟩⟩ ⟨"restart the phone", [], ⟨1, 1, 1, 2⟩⟩
      initialCallCentreSession "my phone turns off" rfl).1,
   ((C7_routing_determinism ⟨⟨.billing, none⟩, [], ⟨1, 2, 3, 5⟩⟩
      initialCallCentreSession rfl).2.2.2.2
      ⟨⟨.technical, none⟩, [], ⟨1, 2, 3, 5⟩⟩ ⟨"restart the phone", [], ⟨1, 1, 1, 2⟩⟩
      initialCallCentreSession "my phone turns off" rfl).2⟩

/-- C3: contrary to the specified reset semantics, reset_state only rebinds
the session to a fresh GraphState instance; because history and usage are
class-level attributes holding mutable objects that every instance shares
and that are only ever mutated in place, the state after reset still carries
the previous turn's non-empty message history and non-zero usage (only the
instance-level response and prompt read as cleared).  Evaluated here on a
concrete one-turn session followed by reset. -/
theorem C3_reset_state_keeps_history_and_usage :
    (CallCentre.reset_state
        (CallCentre.ask_async
          (fun _ => ⟨⟨.general, some "hello there"⟩,
                     [⟨.request, [⟨.userPromptPart, "hi"⟩]⟩,
                      ⟨.response, [⟨.textPart, "hello there"⟩]⟩],
                     ⟨1, 12, 7, 19⟩⟩)
          (fun _ => ⟨"", [], Usage.zero⟩)
          initialCallCentreSession "hi").2).response = none ∧
    (CallCentre.reset_state
        (CallCentre.ask_async
          (fun _ => ⟨⟨.general, some "hello there"⟩,
                     [⟨.request, [⟨.userPromptPart, "hi"⟩]⟩,
                      ⟨.response, [⟨.textPart, "hello there"⟩]⟩],
                     ⟨1, 12, 7, 19⟩⟩)
          (fun _ => ⟨"", [], Usage.zero⟩)
          initialCallCentreSession "hi").2).prompt = none ∧
    (CallCentre.reset_state
        (CallCentre.ask_async
          (fun _ => ⟨⟨.general, some "hello there"⟩,
                     [⟨.request, [⟨.userPromptPart, "hi"⟩]⟩,
                      ⟨.response, [⟨.textPart, "hello there"⟩]⟩],
                     ⟨1, 12, 7, 19⟩⟩)
          (fun _ => ⟨"", [], Usage.zero⟩)
          initialCallCentreSession "hi").2).historyObj
      = [⟨.request, [⟨.userPromptPart, "hi"⟩]⟩,
         ⟨.response, [⟨.textPart, "hello there"⟩]⟩] ∧
    (CallCentre.reset_state
        (CallCentre.ask_async
          (fun _ => ⟨⟨.general, some "hello there"⟩,
                     [⟨.request, [⟨.userPromptPart, "hi"⟩]⟩,
                      ⟨.response, [⟨.textPart, "hello there"⟩]⟩],
                     ⟨1, 12, 7, 19⟩⟩)
          (fun _ => ⟨"", [], Usage.zero⟩)
          initialCallCentreSession "hi").2).usageObj = ⟨1, 12, 7, 19⟩ ∧
    (⟨1, 12, 7, 19⟩ : Usage) ≠ Usage.zero := by
  refine ⟨rfl, rfl, ?_, rfl, by decide⟩
  decide
